import Mathlib

/-!
Verification of the execution-mode / extraction-strategy engine of the
stock ETL pipeline (stock_etl).

The development shallowly embeds the decision logic of
`stock_etl/utils/polish_trading_calendar.py`,
`stock_etl/utils/dag_utils.py` and
`stock_etl/airflow_dags/stock_etl_dag.py`.

Dates are modelled as natural numbers counting days since 1970-01-01
(so 1970-01-01 is day 0, which was a Thursday).  Python's
`date.weekday()` returns Monday = 0 .. Sunday = 6, hence
`weekday d = (d + 3) % 7`.
-/

namespace StockEtl

/-- Python `date.weekday()`: Monday = 0 .. Sunday = 6, for a day count
since 1970-01-01 (a Thursday). -/
def weekday (d : Nat) : Nat := (d + 3) % 7

/-- `PolishTradingCalendar` from `polish_trading_calendar.py`: the set of
Polish public holidays (a date-keyed mapping to holiday names, produced by
the external `holidays` library) plus a set of custom market closures. -/
structure PolishTradingCalendar where
  polish_holidays : List (Nat × String)
  custom_closures : List Nat
deriving Repr, DecidableEq

/-- `PolishTradingCalendar._get_custom_market_closures`: returns the empty
set (no custom closures are registered in the source). -/
def _get_custom_market_closures : List Nat := []

/-- Dictionary lookup in `self.polish_holidays` (both the `in` membership
test and the `[...]` item access go through this single lookup). -/
def PolishTradingCalendar.holidayEntry (cal : PolishTradingCalendar) (d : Nat) :
    Option (Nat × String) :=
  cal.polish_holidays.find? (fun p => p.1 = d)

/-- `PolishTradingCalendar.is_trading_day`: weekday, not a Polish public
holiday, not a custom market closure. -/
def PolishTradingCalendar.is_trading_day (cal : PolishTradingCalendar) (check_date : Nat) :
    Bool :=
  if weekday check_date ≥ 5 then false
  else if (cal.holidayEntry check_date).isSome then false
  else if cal.custom_closures.contains check_date then false
  else true

/-- `PolishTradingCalendar.get_holiday_name`: the holiday's name when the
date is a Polish public holiday, `"Market Closure"` for a custom closure,
and the empty string otherwise. -/
def PolishTradingCalendar.get_holiday_name (cal : PolishTradingCalendar) (check_date : Nat) :
    String :=
  match cal.holidayEntry check_date with
  | some p => p.2
  | none =>
    if cal.custom_closures.contains check_date then "Market Closure" else ""

/-- The calendar as constructed by `PolishTradingCalendar.__init__` (and
hence the module-level `polish_calendar` instance): the holiday mapping
comes from the external `holidays` library (a parameter here) and the
custom closures from `_get_custom_market_closures`. -/
def mkPolishCalendar (hs : List (Nat × String)) : PolishTradingCalendar :=
  { polish_holidays := hs
    custom_closures := _get_custom_market_closures }

/-- The `while not is_trading_day: check_date -= 1` loop of
`get_previous_trading_day`, with explicit fuel (the source loop terminates
because holidays are finite and weekends recur every 7 days). -/
def prevTradingAux (cal : PolishTradingCalendar) : Nat → Nat → Nat
  | 0, d => d
  | fuel + 1, d =>
    if cal.is_trading_day d then d else prevTradingAux cal fuel (d - 1)

/-- `PolishTradingCalendar.get_previous_trading_day`: walk backwards from
the day before `reference_date` to the first trading day. -/
def PolishTradingCalendar.get_previous_trading_day (cal : PolishTradingCalendar)
    (reference_date : Nat) : Nat :=
  prevTradingAux cal reference_date (reference_date - 1)

/-! ## Run context (the scheduler boundary) -/

/-- The operator-supplied DAG-run configuration mapping (`dag_run.conf`).
Each recognised key is optional; `instruments` is `none` when the key is
absent or its value is not a mapping (the source guards with
`isinstance(instrument_overrides, dict)`). -/
structure DagConf where
  mode : Option String := none
  extraction_mode : Option String := none
  instruments : Option (List (String × String)) := none
  date_range : Option String := none
  batch_size : Option Nat := none
deriving Repr, DecidableEq

/-- The scheduler's DAG-run object: its run-type tag and configuration.
An absent / falsy `conf` is represented by the all-`none` `DagConf`, which
the source's `conf if dag_run and dag_run.conf else {}` guard maps to the
same empty mapping. -/
structure DagRun where
  run_type : String
  conf : DagConf := {}
deriving Repr, DecidableEq

/-- Modelled from the external Airflow library (not part of this
repository): `DagRun.is_backfill` is the property
`self.run_type == DagRunType.BACKFILL_JOB`, i.e. the run type string
equals `"backfill"`. -/
def DagRun.is_backfill (dr : DagRun) : Bool := dr.run_type = "backfill"

/-- The task context handed to the DAG callables by the scheduler: the
DAG-run object (always supplied by the scheduler for a real run), the
`ds` execution-date string (modelled as the date it denotes) and the
optional `logical_date`. -/
structure Context where
  dag_run : DagRun
  ds : Option Nat := none
  logical_date : Option Nat := none
deriving Repr, DecidableEq

/-- Resolution of the execution date in `determine_execution_mode`:
`ds` if present, else `logical_date`, else today (logged fallback). -/
def resolvedExecutionDate (today : Nat) (ctx : Context) : Nat :=
  match ctx.ds with
  | some d => d
  | none =>
    match ctx.logical_date with
    | some d => d
    | none => today

/-- Execution mode of a run. -/
inductive Mode
  | incremental
  | backfill
deriving Repr, DecidableEq

/-- The configuration dictionary built by `determine_execution_mode`. -/
structure ExecConfig where
  mode : Mode
  execution_date_obj : Nat
  today : Nat
  dag_run_type : String
  is_trading_day : Bool
  reason : String
  manual_conf : DagConf
  target_date : Nat
  date_range : String
  batch_size : Nat
deriving Repr, DecidableEq

/-- The mode-determination chain of `determine_execution_mode`
(the `if/elif` ladder that picks `mode` and `reason`). -/
def modeAndReason (today : Nat) (ctx : Context) : Mode × String :=
  if ctx.dag_run.conf.mode = some "backfill" then
    (Mode.backfill, "Explicit backfill configuration")
  else if ctx.dag_run.run_type = "backfill" ∨ ctx.dag_run.run_type = "manual" then
    (Mode.backfill, "DAG run type: " ++ ctx.dag_run.run_type)
  else if resolvedExecutionDate today ctx < today - 7 then
    (Mode.backfill,
      "Historical date: " ++ toString (resolvedExecutionDate today ctx)
        ++ " (older than 7 days)")
  else if ctx.dag_run.is_backfill then
    (Mode.backfill, "Airflow catchup/backfill run")
  else
    (Mode.incremental, "Default mode")

/-- `determine_execution_mode` from `dag_utils.py`.  `today` is the
ambient `date.today()`; `cal` is the module-level `polish_calendar`
instance.  The mode-specific tail fills in `target_date`, `date_range`
and `batch_size`. -/
def determine_execution_mode (cal : PolishTradingCalendar) (today : Nat)
    (ctx : Context) : Mode × ExecConfig :=
  ((modeAndReason today ctx).1,
    if (modeAndReason today ctx).1 = Mode.backfill then
      { mode := (modeAndReason today ctx).1
        execution_date_obj := resolvedExecutionDate today ctx
        today := today
        dag_run_type := ctx.dag_run.run_type
        is_trading_day := cal.is_trading_day (resolvedExecutionDate today ctx)
        reason := (modeAndReason today ctx).2
        manual_conf := ctx.dag_run.conf
        target_date := resolvedExecutionDate today ctx
        date_range := ctx.dag_run.conf.date_range.getD "single_day"
        batch_size := ctx.dag_run.conf.batch_size.getD 30 }
    else
      { mode := (modeAndReason today ctx).1
        execution_date_obj := resolvedExecutionDate today ctx
        today := today
        dag_run_type := ctx.dag_run.run_type
        is_trading_day := cal.is_trading_day (resolvedExecutionDate today ctx)
        reason := (modeAndReason today ctx).2
        manual_conf := ctx.dag_run.conf
        target_date := cal.get_previous_trading_day today
        date_range := "single_day"
        batch_size := 1 })

/-- `should_skip_execution` from `dag_utils.py`: whole-run skip gate on
the trading calendar. -/
def should_skip_execution (cal : PolishTradingCalendar) (config : ExecConfig) :
    Bool × String :=
  if config.mode = Mode.backfill then
    if weekday config.target_date ≥ 5 then
      (true, "Weekend date: " ++ toString config.target_date)
    else
      (false, "Backfill mode: processing " ++ toString config.target_date)
  else
    if ¬ cal.is_trading_day config.target_date then
      if cal.get_holiday_name config.target_date ≠ "" then
        (true, "Polish holiday: " ++ cal.get_holiday_name config.target_date
          ++ " (" ++ toString config.target_date ++ ")")
      else if weekday config.target_date ≥ 5 then
        (true, "Weekend: " ++ toString config.target_date)
      else
        (true, "Non-trading day: " ++ toString config.target_date)
    else
      (false, "Trading day: proceeding with " ++ toString config.target_date)

/-! ## Per-instrument extraction strategy selector (`stock_etl_dag.py`) -/

/-- The row returned by the per-instrument database-state query of
`determine_extraction_strategy`:
`(record_count, earliest_date, latest_date, is_stale)`.  The date columns
and the staleness flag are SQL aggregates and are NULL (`none`) when the
instrument has no price rows. -/
structure DbRow where
  record_count : Nat
  earliest_date : Option Nat
  latest_date : Option Nat
  is_stale : Option Bool
deriving Repr, DecidableEq

/-- The row the SQL query
`SELECT COUNT(*), MIN(trading_date), MAX(trading_date),
MAX(trading_date) < (CURRENT_DATE - INTERVAL '7 days') ...`
produces for an instrument whose stored trading dates are `dates`,
evaluated with `CURRENT_DATE = today`. -/
def queryRow (dates : List Nat) (today : Nat) : DbRow :=
  { record_count := dates.length
    earliest_date := dates.min?
    latest_date := dates.max?
    is_stale := dates.max?.map (fun l => decide (l < today - 7)) }

/-- Layer 1 of `determine_extraction_strategy`: the per-instrument manual
override.  `some m` when `manual_conf` has an `instruments` mapping with
an entry for this exact symbol whose value `m` is `historical` or
`incremental`; `none` otherwise. -/
def layer1Override (conf : DagConf) (symbol : String) : Option String :=
  match conf.instruments with
  | none => none
  | some overrides =>
    match overrides.find? (fun p => p.1 = symbol) with
    | none => none
    | some p =>
      if p.2 = "historical" ∨ p.2 = "incremental" then some p.2 else none

/-- `manual_conf.get('extraction_mode', 'smart')`. -/
def globalExtractionMode (conf : DagConf) : String :=
  conf.extraction_mode.getD "smart"

/-- Rendering of a possibly-NULL date inside a reason string. -/
def dateStr : Option Nat → String
  | some d => toString d
  | none => "None"

/-- `days_stale = (datetime.now().date() - latest_date).days if latest_date
else 999` (Python date subtraction is a signed day count). -/
def daysStale (today : Nat) : Option Nat → Int
  | some l => (today : Int) - (l : Int)
  | none => 999

/-- `determine_extraction_strategy` from `stock_etl_dag.py`.
Returns `(strategy, reason, max_records_to_process)`.

`db` is the outcome of the database-state query: `some row` when the
query succeeded and `fetchone` returned a row, `none` when the query
raised (the source's `except Exception: pass`, after which control falls
through to the run-level fallback) or returned a falsy row.  The caught
exception is thereby modelled as an ordinary value: the function is total
and never propagates a query failure. -/
def determine_extraction_strategy (cal : PolishTradingCalendar) (today : Nat)
    (symbol : String) (instrument_type : String) (ctx : Context)
    (db : Option DbRow) : String × String × Int :=
  match layer1Override ctx.dag_run.conf symbol with
  | some override_mode =>
    (override_mode, "Manual override: " ++ symbol ++ " → " ++ override_mode, 1000)
  | none =>
    if globalExtractionMode ctx.dag_run.conf = "full_backfill" then
      ("historical", "UNLIMITED BACKFILL: All available historical data", -1)
    else if globalExtractionMode ctx.dag_run.conf = "historical" then
      ("historical", "Global historical mode override", 1000)
    else if globalExtractionMode ctx.dag_run.conf = "incremental" then
      ("incremental", "Global incremental mode override", 1)
    else
      match db with
      | some row =>
        if row.record_count = 0 then
          ("historical", "New instrument: no existing data for " ++ symbol, 1000)
        else if row.is_stale = some true then
          ("historical",
            "Stale data: " ++ symbol ++ " last updated "
              ++ toString (daysStale today row.latest_date) ++ " days ago", 500)
        else if row.latest_date.isSome && row.record_count < 30 then
          ("historical",
            "Sparse data: only " ++ toString row.record_count ++ " records for "
              ++ symbol, 1000)
        else
          ("incremental",
            "Current data: " ++ symbol ++ " last updated " ++ dateStr row.latest_date, 1)
      | none =>
        if (determine_execution_mode cal today ctx).1 = Mode.backfill then
          ("historical", "Backfill execution mode detected", 1000)
        else
          ("incremental", "Default incremental mode for " ++ symbol, 1)

/-! ## Load counters and job finalization (`stock_etl_dag.py`) -/

/-- Outcome of processing one record in `load_data_to_database`:
either the upsert executed and `cursor.rowcount` was reported, or an
exception was raised while processing the record (caught per record). -/
inductive UpsertOutcome
  | ok (rowcount : Nat)
  | err
deriving Repr, DecidableEq

/-- The aggregate counters of `load_data_to_database`. -/
structure LoadCounters where
  records_inserted : Nat
  records_updated : Nat
  records_failed : Nat
deriving Repr, DecidableEq

/-- One step of the per-record counting in `load_data_to_database`:
`if cursor.rowcount > 0: records_inserted += 1 else: records_updated += 1`,
and `records_failed += 1` in the per-record `except` handler. -/
def countRecord (c : LoadCounters) : UpsertOutcome → LoadCounters
  | .ok rowcount =>
    if rowcount > 0 then { c with records_inserted := c.records_inserted + 1 }
    else { c with records_updated := c.records_updated + 1 }
  | .err => { c with records_failed := c.records_failed + 1 }

/-- The counter state after `load_data_to_database` has processed the
given sequence of record outcomes (stocks and indices alike use the same
counting code). -/
def load_counters (outcomes : List UpsertOutcome) : LoadCounters :=
  outcomes.foldl countRecord ⟨0, 0, 0⟩

/-- The results dictionary assembled at the end of
`load_data_to_database`: `total_processed = inserted + updated + failed`
and `success_rate = (inserted + updated) / total_processed * 100`
(0 when nothing was processed). -/
structure LoadResults where
  total_processed : Nat
  records_inserted : Nat
  records_updated : Nat
  total_failed : Nat
  success_rate : ℚ
deriving Repr, DecidableEq

/-- Assemble the `load_data_to_database` results from its counters. -/
def mkLoadResults (c : LoadCounters) : LoadResults :=
  { total_processed := c.records_inserted + c.records_updated + c.records_failed
    records_inserted := c.records_inserted
    records_updated := c.records_updated
    total_failed := c.records_failed
    success_rate :=
      if c.records_inserted + c.records_updated + c.records_failed > 0 then
        ((c.records_inserted : ℚ) + (c.records_updated : ℚ)) /
          ((c.records_inserted + c.records_updated + c.records_failed : Nat) : ℚ) * 100
      else 0 }

/-- Tag of an outcome that executed the upsert (reached the
`cursor.rowcount` counting), as opposed to raising. -/
def isUpsertOk : UpsertOutcome → Bool
  | .ok _ => true
  | .err => false

/-- The final-status computation of `finalize_etl_session`:
status starts `completed`; only when `total_failed > 0` is the success
rate consulted, and only a rate below 50 yields `failed`. -/
def finalize_status (lr : LoadResults) : String :=
  if lr.total_failed > 0 then
    if lr.success_rate < 50 then "failed" else "completed"
  else "completed"

/-! ## Theorems -/

/-- The weekday of any day is one of 0..6. -/
theorem weekday_lt_seven (d : Nat) : weekday d < 7 := Nat.mod_lt _ (by omega)

/-- The mode returned by `determine_execution_mode` is the one picked by
the mode-determination chain. -/
theorem execution_mode_mode_eq (cal : PolishTradingCalendar) (today : Nat)
    (ctx : Context) :
    (determine_execution_mode cal today ctx).1 = (modeAndReason today ctx).1 := rfl

/-- The `reason` field of the config built by `determine_execution_mode`
is the reason selected by the mode-determination chain, whichever
mode-specific branch fills in the target date. -/
theorem execution_mode_reason_eq (cal : PolishTradingCalendar) (today : Nat)
    (ctx : Context) :
    (determine_execution_mode cal today ctx).2.reason =
      (modeAndReason today ctx).2 := by
  unfold determine_execution_mode
  split <;> rfl

/--
C3: `determine_execution_mode` selects the mode by the first matching rule
in exactly this precedence order: (1) operator configuration sets
`mode = backfill`; (2) the run type is `backfill` or `manual`; (3) the
execution date is more than 7 days in the past; (4) otherwise
incremental with the default reason.  The source's additional
`dag_run.is_backfill` check is unreachable once rules 1–3 have failed,
because Airflow's `is_backfill` holds exactly when the run type is
`backfill`, which rule 2 already caught.
-/
theorem execution_mode_precedence (cal : PolishTradingCalendar) (today : Nat)
    (ctx : Context) :
    (ctx.dag_run.conf.mode = some "backfill" →
      (determine_execution_mode cal today ctx).1 = Mode.backfill ∧
      (determine_execution_mode cal today ctx).2.reason =
        "Explicit backfill configuration") ∧
    (ctx.dag_run.conf.mode ≠ some "backfill" →
      (ctx.dag_run.run_type = "backfill" ∨ ctx.dag_run.run_type = "manual") →
      (determine_execution_mode cal today ctx).1 = Mode.backfill ∧
      (determine_execution_mode cal today ctx).2.reason =
        "DAG run type: " ++ ctx.dag_run.run_type) ∧
    (ctx.dag_run.conf.mode ≠ some "backfill" →
      ctx.dag_run.run_type ≠ "backfill" → ctx.dag_run.run_type ≠ "manual" →
      resolvedExecutionDate today ctx < today - 7 →
      (determine_execution_mode cal today ctx).1 = Mode.backfill) ∧
    (ctx.dag_run.conf.mode ≠ some "backfill" →
      ctx.dag_run.run_type ≠ "backfill" → ctx.dag_run.run_type ≠ "manual" →
      ¬ resolvedExecutionDate today ctx < today - 7 →
      (determine_execution_mode cal today ctx).1 = Mode.incremental ∧
      (determine_execution_mode cal today ctx).2.reason = "Default mode") := by
  refine ⟨fun h1 => ?_, fun h1 h2 => ?_, fun h1 h2 h3 h4 => ?_, fun h1 h2 h3 h4 => ?_⟩
  · rw [execution_mode_mode_eq, execution_mode_reason_eq]
    unfold modeAndReason
    rw [if_pos h1]
    exact ⟨rfl, rfl⟩
  · rw [execution_mode_mode_eq, execution_mode_reason_eq]
    unfold modeAndReason
    rw [if_neg h1, if_pos h2]
    exact ⟨rfl, rfl⟩
  · rw [execution_mode_mode_eq]
    unfold modeAndReason
    rw [if_neg h1, if_neg (not_or.mpr ⟨h2, h3⟩), if_pos h4]
  · rw [execution_mode_mode_eq, execution_mode_reason_eq]
    unfold modeAndReason
    rw [if_neg h1, if_neg (not_or.mpr ⟨h2, h3⟩), if_neg h4,
      if_neg (by simp [DagRun.is_backfill, h2])]
    exact ⟨rfl, rfl⟩

/-- Witness for C3: a scheduled run, recent date, no explicit mode:
rules 1–3 fail and the resolved mode is incremental with the default
reason. -/
theorem execution_mode_precedence_witness :
    (determine_execution_mode ⟨[], []⟩ 20003
        { dag_run := { run_type := "scheduled" }, ds := some 20000 }).1 =
      Mode.incremental ∧
    (determine_execution_mode ⟨[], []⟩ 20003
        { dag_run := { run_type := "scheduled" }, ds := some 20000 }).2.reason =
      "Default mode" :=
  (execution_mode_precedence ⟨[], []⟩ 20003
      { dag_run := { run_type := "scheduled" }, ds := some 20000 }).2.2.2
    (by decide) (by decide) (by decide) (by decide)

/--
C4: the target date of the `ExecutionConfig` is the resolved
logical/scheduled date in backfill mode and `previous_trading_day(today)`
in incremental mode, independently of the logical date; hence any two
incremental-mode resolutions with the same `today` agree on the target
date.
-/
theorem execution_mode_target_date (cal : PolishTradingCalendar) (today : Nat)
    (ctx ctx' : Context) :
    ((determine_execution_mode cal today ctx).1 = Mode.backfill →
      (determine_execution_mode cal today ctx).2.target_date =
        resolvedExecutionDate today ctx) ∧
    ((determine_execution_mode cal today ctx).1 = Mode.incremental →
      (determine_execution_mode cal today ctx).2.target_date =
        cal.get_previous_trading_day today) ∧
    ((determine_execution_mode cal today ctx).1 = Mode.incremental →
      (determine_execution_mode cal today ctx').1 = Mode.incremental →
      (determine_execution_mode cal today ctx).2.target_date =
        (determine_execution_mode cal today ctx').2.target_date) := by
  have key : ∀ c : Context,
      ((determine_execution_mode cal today c).1 = Mode.backfill →
        (determine_execution_mode cal today c).2.target_date =
          resolvedExecutionDate today c) ∧
      ((determine_execution_mode cal today c).1 = Mode.incremental →
        (determine_execution_mode cal today c).2.target_date =
          cal.get_previous_trading_day today) := by
    intro c
    constructor
    · intro h
      have h' : (modeAndReason today c).1 = Mode.backfill := h
      unfold determine_execution_mode
      rw [if_pos h']
    · intro h
      have h' : (modeAndReason today c).1 = Mode.incremental := h
      unfold determine_execution_mode
      rw [if_neg (by rw [h']; decide)]
  refine ⟨(key ctx).1, (key ctx).2, fun h h' => ?_⟩
  rw [(key ctx).2 h, (key ctx').2 h']

/-- Witness for C4: a scheduled recent run resolves to incremental and
its target date is the previous trading day of `today`; a second context
with a different logical date agrees. -/
theorem execution_mode_target_date_witness :
    (determine_execution_mode ⟨[], []⟩ 20003
        { dag_run := { run_type := "scheduled" }, ds := some 20000 }).2.target_date =
      (⟨[], []⟩ : PolishTradingCalendar).get_previous_trading_day 20003 :=
  (execution_mode_target_date ⟨[], []⟩ 20003
      { dag_run := { run_type := "scheduled" }, ds := some 20000 }
      { dag_run := { run_type := "scheduled" }, ds := some 20000 }).2.1
    (by decide)

/--
C5: `should_skip_execution` skips in backfill mode exactly when the
target date's weekday is 5 or 6 (holidays are not skipped in backfill
mode), and in incremental mode exactly when the target date is not a
trading day.
-/
theorem skip_decision_rule (cal : PolishTradingCalendar) (config : ExecConfig) :
    (config.mode = Mode.backfill →
      ((should_skip_execution cal config).1 = true ↔
        (weekday config.target_date = 5 ∨ weekday config.target_date = 6))) ∧
    (config.mode = Mode.incremental →
      ((should_skip_execution cal config).1 = true ↔
        cal.is_trading_day config.target_date = false)) := by
  have hw := weekday_lt_seven config.target_date
  unfold should_skip_execution
  constructor
  · intro h
    rw [if_pos h]
    by_cases h5 : weekday config.target_date ≥ 5
    · rw [if_pos h5]
      exact ⟨fun _ => by omega, fun _ => rfl⟩
    · rw [if_neg h5]
      constructor
      · intro hx
        exact absurd hx (by simp)
      · intro hx
        exact absurd hx (by omega)
  · intro h
    rw [if_neg (by rw [h]; decide)]
    by_cases ht : cal.is_trading_day config.target_date = true
    · rw [if_neg (by simp [ht])]
      simp [ht]
    · rw [if_pos ht]
      simp only [Bool.not_eq_true] at ht
      simp only [ht]
      constructor
      · intro _
        trivial
      · intro _
        split
        · rfl
        · split <;> rfl

/-- Field lemmas for the database-state query row. -/
theorem queryRow_record_count (dates : List Nat) (today : Nat) :
    (queryRow dates today).record_count = dates.length := rfl

/-- The latest-date column of the query row is the maximum stored date. -/
theorem queryRow_latest_date (dates : List Nat) (today : Nat) :
    (queryRow dates today).latest_date = dates.max? := rfl

/-- The staleness column of the query row. -/
theorem queryRow_is_stale (dates : List Nat) (today : Nat) :
    (queryRow dates today).is_stale =
      dates.max?.map (fun l => decide (l < today - 7)) := rfl

/--
C1: across every input, `determine_extraction_strategy` returns
`max_records ∈ {-1, 1000, 500, 1}`, and it returns `-1` only when no
per-symbol override matched and the global `extraction_mode` is
`full_backfill`; in particular every database-state-inferred decision and
every other layer carries a finite cap.
-/
theorem extraction_strategy_unbounded_only_full_backfill
    (cal : PolishTradingCalendar) (today : Nat) (symbol instrument_type : String)
    (ctx : Context) (db : Option DbRow) :
    ((determine_extraction_strategy cal today symbol instrument_type ctx db).2.2 = -1 ∨
      (determine_extraction_strategy cal today symbol instrument_type ctx db).2.2 = 1000 ∨
      (determine_extraction_strategy cal today symbol instrument_type ctx db).2.2 = 500 ∨
      (determine_extraction_strategy cal today symbol instrument_type ctx db).2.2 = 1) ∧
    ((determine_extraction_strategy cal today symbol instrument_type ctx db).2.2 = -1 →
      layer1Override ctx.dag_run.conf symbol = none ∧
      globalExtractionMode ctx.dag_run.conf = "full_backfill") := by
  unfold determine_extraction_strategy
  cases h1 : layer1Override ctx.dag_run.conf symbol with
  | some m =>
    refine ⟨Or.inr (Or.inl rfl), fun hc => ?_⟩
    simp at hc
  | none =>
    cases db with
    | some row =>
      constructor <;> (repeat' split) <;> simp_all
    | none =>
      constructor <;> (repeat' split) <;> simp_all

/-- Witness for C1: with a `full_backfill` global override and no
per-symbol entry, the cap is `-1` and the two conditions of the second
conjunct hold. -/
theorem extraction_strategy_unbounded_only_full_backfill_witness :
    layer1Override { extraction_mode := some "full_backfill" } "XTB" = none ∧
    globalExtractionMode
      ({ extraction_mode := some "full_backfill" } : DagConf) = "full_backfill" :=
  (extraction_strategy_unbounded_only_full_backfill ⟨[], []⟩ 20003 "XTB" "stock"
      { dag_run := { run_type := "scheduled",
                     conf := { extraction_mode := some "full_backfill" } },
        ds := some 20000 }
      (some (queryRow [20002] 20003))).2 (by decide)

/--
C2: the per-instrument manual override is Layer 1 and wins over every
other layer: whenever the configuration's `instruments` mapping has an
entry for this exact symbol whose value is `historical` or `incremental`,
the selector returns that strategy with `max_records = 1000`, for every
database state, every global `extraction_mode` and every run-level mode.
-/
theorem extraction_strategy_layer1_precedence
    (cal : PolishTradingCalendar) (today : Nat) (symbol instrument_type : String)
    (ctx : Context) (db : Option DbRow)
    (overrides : List (String × String)) (p : String × String)
    (hmap : ctx.dag_run.conf.instruments = some overrides)
    (hfind : overrides.find? (fun q => q.1 = symbol) = some p)
    (hvalid : p.2 = "historical" ∨ p.2 = "incremental") :
    determine_extraction_strategy cal today symbol instrument_type ctx db =
      (p.2, "Manual override: " ++ symbol ++ " → " ++ p.2, 1000) := by
  have h1 : layer1Override ctx.dag_run.conf symbol = some p.2 := by
    simp only [layer1Override, hmap, hfind]
    rw [if_pos hvalid]
  simp only [determine_extraction_strategy, h1]

/-- Witness for C2: a symbol with a per-symbol `historical` override, a
conflicting `full_backfill` global override, fresh database state and a
manual (backfill-mode) run still resolves to the Layer-1 override. -/
theorem extraction_strategy_layer1_precedence_witness :
    determine_extraction_strategy ⟨[], []⟩ 20003 "XTB" "stock"
        { dag_run := { run_type := "manual",
                       conf := { extraction_mode := some "full_backfill",
                                 instruments := some [("XTB", "historical")] } },
          ds := some 20000 }
        (some (queryRow [20002] 20003)) =
      ("historical", "Manual override: XTB → historical", 1000) :=
  extraction_strategy_layer1_precedence ⟨[], []⟩ 20003 "XTB" "stock"
    { dag_run := { run_type := "manual",
                   conf := { extraction_mode := some "full_backfill",
                             instruments := some [("XTB", "historical")] } },
      ds := some 20000 }
    (some (queryRow [20002] 20003))
    [("XTB", "historical")] ("XTB", "historical") rfl (by decide) (Or.inl rfl)

/--
C6: when neither override layer matched and the database query returns
the row computed from the instrument's stored dates, the selector applies
exactly these cases in order: no records → (`historical`, 1000); stale
(latest more than 7 days before today) → (`historical`, 500) with the day
gap in the reason; fewer than 30 records → (`historical`, 1000);
otherwise → (`incremental`, 1).
-/
theorem extraction_strategy_db_inference
    (cal : PolishTradingCalendar) (today : Nat) (symbol instrument_type : String)
    (ctx : Context) (dates : List Nat)
    (h1 : layer1Override ctx.dag_run.conf symbol = none)
    (h2 : globalExtractionMode ctx.dag_run.conf ≠ "full_backfill")
    (h3 : globalExtractionMode ctx.dag_run.conf ≠ "historical")
    (h4 : globalExtractionMode ctx.dag_run.conf ≠ "incremental") :
    (dates = [] →
      determine_extraction_strategy cal today symbol instrument_type ctx
          (some (queryRow dates today)) =
        ("historical", "New instrument: no existing data for " ++ symbol, 1000)) ∧
    (∀ l, dates.max? = some l → l < today - 7 →
      determine_extraction_strategy cal today symbol instrument_type ctx
          (some (queryRow dates today)) =
        ("historical",
          "Stale data: " ++ symbol ++ " last updated "
            ++ toString ((today : Int) - (l : Int)) ++ " days ago", 500)) ∧
    (∀ l, dates.max? = some l → ¬ l < today - 7 → dates.length < 30 →
      determine_extraction_strategy cal today symbol instrument_type ctx
          (some (queryRow dates today)) =
        ("historical",
          "Sparse data: only " ++ toString dates.length ++ " records for "
            ++ symbol, 1000)) ∧
    (∀ l, dates.max? = some l → ¬ l < today - 7 → 30 ≤ dates.length →
      determine_extraction_strategy cal today symbol instrument_type ctx
          (some (queryRow dates today)) =
        ("incremental",
          "Current data: " ++ symbol ++ " last updated " ++ toString l, 1)) := by
  refine ⟨fun hnil => ?_, fun l hmax hst => ?_, fun l hmax hst hlen => ?_,
    fun l hmax hst hlen => ?_⟩
  · subst hnil
    simp only [determine_extraction_strategy, h1]
    rw [if_neg h2, if_neg h3, if_neg h4]
    simp [queryRow]
  · have hne : dates.length ≠ 0 := by
      cases dates with
      | nil => simp at hmax
      | cons a t => simp
    have hstale : (queryRow dates today).is_stale = some true := by
      rw [queryRow_is_stale, hmax]
      simp [hst]
    simp only [determine_extraction_strategy, h1]
    rw [if_neg h2, if_neg h3, if_neg h4]
    rw [if_neg (by rw [queryRow_record_count]; exact hne), if_pos hstale]
    rw [queryRow_latest_date, hmax]
    simp [daysStale]
  · have hne : dates.length ≠ 0 := by
      cases dates with
      | nil => simp at hmax
      | cons a t => simp
    have hstale : (queryRow dates today).is_stale ≠ some true := by
      rw [queryRow_is_stale, hmax]
      simp [hst]
    simp only [determine_extraction_strategy, h1]
    rw [if_neg h2, if_neg h3, if_neg h4]
    rw [if_neg (by rw [queryRow_record_count]; exact hne), if_neg hstale]
    rw [if_pos (by
      rw [queryRow_latest_date, queryRow_record_count, hmax]
      simp [hlen])]
    rw [queryRow_record_count]
  · have hne : dates.length ≠ 0 := by
      cases dates with
      | nil => simp at hmax
      | cons a t => simp
    have hstale : (queryRow dates today).is_stale ≠ some true := by
      rw [queryRow_is_stale, hmax]
      simp [hst]
    simp only [determine_extraction_strategy, h1]
    rw [if_neg h2, if_neg h3, if_neg h4]
    rw [if_neg (by rw [queryRow_record_count]; exact hne), if_neg hstale]
    rw [if_neg (by
      rw [queryRow_latest_date, queryRow_record_count, hmax]
      simp
      omega)]
    rw [queryRow_latest_date, hmax]
    simp [dateStr]

/-- Witness for C6: a symbol with no stored rows and no overrides gets a
historical pull capped at 1000. -/
theorem extraction_strategy_db_inference_witness :
    determine_extraction_strategy ⟨[], []⟩ 20003 "XTB" "stock"
        { dag_run := { run_type := "scheduled" }, ds := some 20000 }
        (some (queryRow [] 20003)) =
      ("historical", "New instrument: no existing data for XTB", 1000) :=
  (extraction_strategy_db_inference ⟨[], []⟩ 20003 "XTB" "stock"
      { dag_run := { run_type := "scheduled" }, ds := some 20000 } []
      (by decide) (by decide) (by decide) (by decide)).1 rfl

/--
C7: a database-query failure never escapes the selector: with no
override layer matched, the failure outcome falls through to the
run-level fallback, returning (`historical`, 1000) when the resolved run
mode is backfill and (`incremental`, 1) otherwise.
-/
theorem extraction_strategy_query_failure_fallback
    (cal : PolishTradingCalendar) (today : Nat) (symbol instrument_type : String)
    (ctx : Context)
    (h1 : layer1Override ctx.dag_run.conf symbol = none)
    (h2 : globalExtractionMode ctx.dag_run.conf ≠ "full_backfill")
    (h3 : globalExtractionMode ctx.dag_run.conf ≠ "historical")
    (h4 : globalExtractionMode ctx.dag_run.conf ≠ "incremental") :
    ((determine_execution_mode cal today ctx).1 = Mode.backfill →
      determine_extraction_strategy cal today symbol instrument_type ctx none =
        ("historical", "Backfill execution mode detected", 1000)) ∧
    ((determine_execution_mode cal today ctx).1 = Mode.incremental →
      determine_extraction_strategy cal today symbol instrument_type ctx none =
        ("incremental", "Default incremental mode for " ++ symbol, 1)) := by
  constructor <;> intro hm <;> simp only [determine_extraction_strategy, h1] <;>
    rw [if_neg h2, if_neg h3, if_neg h4]
  · rw [if_pos hm]
  · rw [if_neg (by rw [hm]; decide)]

/-- Witness for C7: query failure on an ordinary scheduled recent run
falls back to single-record incremental. -/
theorem extraction_strategy_query_failure_fallback_witness :
    determine_extraction_strategy ⟨[], []⟩ 20003 "XTB" "stock"
        { dag_run := { run_type := "scheduled" }, ds := some 20000 } none =
      ("incremental", "Default incremental mode for XTB", 1) :=
  (extraction_strategy_query_failure_fallback ⟨[], []⟩ 20003 "XTB" "stock"
      { dag_run := { run_type := "scheduled" }, ds := some 20000 }
      (by decide) (by decide) (by decide) (by decide)).2 (by decide)

/-- Witness for C5: in backfill mode a Saturday (day 2 since 1970-01-01)
is skipped. -/
theorem skip_decision_rule_witness :
    (should_skip_execution ⟨[], []⟩
        { mode := Mode.backfill, execution_date_obj := 2, today := 2,
          dag_run_type := "manual", is_trading_day := false, reason := "",
          manual_conf := {}, target_date := 2, date_range := "single_day",
          batch_size := 30 }).1 = true :=
  ((skip_decision_rule ⟨[], []⟩
      { mode := Mode.backfill, execution_date_obj := 2, today := 2,
        dag_run_type := "manual", is_trading_day := false, reason := "",
        manual_conf := {}, target_date := 2, date_range := "single_day",
        batch_size := 30 }).1 rfl).mpr (by decide)

/--
C8 counterexample: a load in which nothing was attempted (no inserts, no
updates, no failures) has reported success rate 0, which is below 50,
yet `finalize_etl_session` finalizes it as `completed` — the claimed
"failed iff success rate below 50%" equivalence fails, because the code
consults the rate only when `total_failed > 0`.
-/
theorem finalize_status_empty_load_counterexample :
    (mkLoadResults ⟨0, 0, 0⟩).success_rate < 50 ∧
    finalize_status (mkLoadResults ⟨0, 0, 0⟩) = "completed" := by
  constructor
  · norm_num [mkLoadResults]
  · rfl

/--
C8 (amended): for every load result with at least one attempted record,
the terminal status is `failed` iff the success rate is below 50%, and
the status is always one of `failed` / `completed`; a job with nonzero
failures but rate at or above 50% is finalized `completed`.
-/
theorem finalize_status_amended (c : LoadCounters)
    (h : 0 < c.records_inserted + c.records_updated + c.records_failed) :
    (finalize_status (mkLoadResults c) = "failed" ↔
      (mkLoadResults c).success_rate < 50) ∧
    (finalize_status (mkLoadResults c) = "failed" ∨
      finalize_status (mkLoadResults c) = "completed") := by
  obtain ⟨i, u, f⟩ := c
  simp only at h
  have hrate : (mkLoadResults ⟨i, u, f⟩).success_rate =
      ((i : ℚ) + (u : ℚ)) / ((i + u + f : Nat) : ℚ) * 100 := by
    simp only [mkLoadResults]
    rw [if_pos h]
  have hfail : (mkLoadResults ⟨i, u, f⟩).total_failed = f := rfl
  constructor
  · unfold finalize_status
    rw [hfail, hrate]
    by_cases hf : 0 < f
    · rw [if_pos hf]
      by_cases hr : ((i : ℚ) + (u : ℚ)) / ((i + u + f : Nat) : ℚ) * 100 < 50
      · rw [if_pos hr]
        exact ⟨fun _ => hr, fun _ => rfl⟩
      · rw [if_neg hr]
        constructor
        · intro hx
          exact absurd hx (by decide)
        · intro hx
          exact absurd hx hr
    · rw [if_neg hf]
      have hf0 : f = 0 := by omega
      subst hf0
      have hiu : (0 : ℚ) < (i : ℚ) + (u : ℚ) := by
        have : 0 < i + u := by omega
        exact_mod_cast this
      have h100 : ((i : ℚ) + (u : ℚ)) / ((i + u + 0 : Nat) : ℚ) * 100 = 100 := by
        push_cast
        rw [add_zero, div_self (ne_of_gt hiu)]
        ring
      rw [h100]
      constructor
      · intro hx
        exact absurd hx (by decide)
      · intro hx
        norm_num at hx
  · unfold finalize_status
    split
    · split
      · exact Or.inl rfl
      · exact Or.inr rfl
    · exact Or.inr rfl

/-- Witness for the amended C8: one attempted record, which failed:
rate 0 is below 50 and the job is finalized `failed`. -/
theorem finalize_status_amended_witness :
    finalize_status (mkLoadResults ⟨0, 0, 1⟩) = "failed" :=
  (finalize_status_amended ⟨0, 0, 1⟩ (by decide)).1.mpr
    (by norm_num [mkLoadResults])

/-- Loop invariant of the per-record counting in `load_data_to_database`:
when every executed upsert reported a positive `cursor.rowcount`, the
fold leaves `records_updated` unchanged and increments
`records_inserted` once per executed upsert. -/
theorem countRecord_fold_invariant (outcomes : List UpsertOutcome) :
    ∀ c : LoadCounters,
      (∀ rc, UpsertOutcome.ok rc ∈ outcomes → 0 < rc) →
      (outcomes.foldl countRecord c).records_updated = c.records_updated ∧
      (outcomes.foldl countRecord c).records_inserted =
        c.records_inserted + (outcomes.filter isUpsertOk).length := by
  induction outcomes with
  | nil =>
    intro c _
    exact ⟨rfl, by simp⟩
  | cons o t ih =>
    intro c h
    have htail : ∀ rc, UpsertOutcome.ok rc ∈ t → 0 < rc :=
      fun rc hm => h rc (List.mem_cons_of_mem _ hm)
    cases o with
    | ok rc =>
      have hrc : 0 < rc := h rc (List.mem_cons_self _ _)
      have ht := ih (countRecord c (.ok rc)) htail
      have hstep : countRecord c (.ok rc) =
          { c with records_inserted := c.records_inserted + 1 } := by
        simp [countRecord, hrc]
      constructor
      · rw [List.foldl_cons, ht.1, hstep]
      · rw [List.foldl_cons, ht.2, hstep]
        simp [isUpsertOk]
        omega
    | err =>
      have ht := ih (countRecord c .err) htail
      constructor
      · rw [List.foldl_cons, ht.1]
        rfl
      · rw [List.foldl_cons, ht.2]
        simp [isUpsertOk, countRecord]

/--
C9: the counting in `load_data_to_database` classifies a record as
inserted whenever `cursor.rowcount > 0` and as updated only when the
rowcount is 0; consequently, in any run where every executed upsert
reports rowcount ≥ 1 (as PostgreSQL's `INSERT ... ON CONFLICT DO UPDATE`
does for both arms), `records_updated` is 0 at finalization and every
executed upsert — including re-loaded rows — is counted as inserted.
-/
theorem load_rowcount_counting (outcomes : List UpsertOutcome)
    (h : ∀ rc, UpsertOutcome.ok rc ∈ outcomes → 0 < rc) :
    (∀ (c : LoadCounters) (rc : Nat), 0 < rc →
      countRecord c (.ok rc) =
        { c with records_inserted := c.records_inserted + 1 }) ∧
    (∀ c : LoadCounters,
      countRecord c (.ok 0) =
        { c with records_updated := c.records_updated + 1 }) ∧
    (load_counters outcomes).records_updated = 0 ∧
    (load_counters outcomes).records_inserted =
      (outcomes.filter isUpsertOk).length := by
  refine ⟨fun c rc hrc => by simp [countRecord, hrc], fun c => by simp [countRecord],
    ?_, ?_⟩
  · exact (countRecord_fold_invariant outcomes ⟨0, 0, 0⟩ h).1
  · simpa using (countRecord_fold_invariant outcomes ⟨0, 0, 0⟩ h).2

/-- Witness for C9: two executed upserts (rowcounts 1) and one failure:
no record is ever counted as updated. -/
theorem load_rowcount_counting_witness :
    (load_counters [UpsertOutcome.ok 1, UpsertOutcome.err,
        UpsertOutcome.ok 1]).records_updated = 0 ∧
    (load_counters [UpsertOutcome.ok 1, UpsertOutcome.err,
        UpsertOutcome.ok 1]).records_inserted = 2 := by
  have h := load_rowcount_counting
    [UpsertOutcome.ok 1, UpsertOutcome.err, UpsertOutcome.ok 1]
    (by
      intro rc hm
      simp only [List.mem_cons, List.not_mem_nil, or_false] at hm
      rcases hm with hm | hm | hm <;> simp_all)
  exact ⟨h.2.2.1, by rw [h.2.2.2]; rfl⟩

/--
C10: whenever `should_skip_execution` skips in incremental mode, the
reason is either the Polish-holiday form or the weekend form; the generic
non-trading-day reason is unreachable for calendars whose custom-closure
set is empty (as built by `_get_custom_market_closures`) and whose
holiday names are all non-empty (as the `holidays` library guarantees).
-/
theorem incremental_skip_reason_forms (hs : List (Nat × String))
    (config : ExecConfig)
    (hnames : ∀ p ∈ hs, p.2 ≠ "")
    (hmode : config.mode = Mode.incremental)
    (hskip : (should_skip_execution (mkPolishCalendar hs) config).1 = true) :
    (∃ nm, nm ≠ "" ∧ (should_skip_execution (mkPolishCalendar hs) config).2 =
        "Polish holiday: " ++ nm ++ " (" ++ toString config.target_date ++ ")") ∨
    (should_skip_execution (mkPolishCalendar hs) config).2 =
      "Weekend: " ++ toString config.target_date := by
  have hclos : (mkPolishCalendar hs).custom_closures = [] := rfl
  set cal := mkPolishCalendar hs with hcal
  have hnames' : ∀ p ∈ cal.polish_holidays, p.2 ≠ "" := hnames
  unfold should_skip_execution at hskip ⊢
  rw [if_neg (by rw [hmode]; decide)] at hskip ⊢
  by_cases ht : cal.is_trading_day config.target_date = true
  · rw [if_neg (by simp [ht])] at hskip
    simp at hskip
  · rw [if_pos ht] at hskip ⊢
    by_cases hn : cal.get_holiday_name config.target_date ≠ ""
    · rw [if_pos hn]
      exact Or.inl ⟨cal.get_holiday_name config.target_date, hn, rfl⟩
    · rw [if_neg hn]
      push_neg at hn
      by_cases h5 : weekday config.target_date ≥ 5
      · rw [if_pos h5]
        exact Or.inr rfl
      · exfalso
        simp only [Bool.not_eq_true] at ht
        unfold PolishTradingCalendar.is_trading_day at ht
        rw [if_neg h5] at ht
        by_cases hs : (cal.holidayEntry config.target_date).isSome = true
        · obtain ⟨p, hp⟩ := Option.isSome_iff_exists.mp hs
          have hpm : p ∈ cal.polish_holidays :=
            List.mem_of_find?_eq_some hp
          have hname : cal.get_holiday_name config.target_date = p.2 := by
            unfold PolishTradingCalendar.get_holiday_name
            rw [hp]
          exact hnames' p hpm (hname ▸ hn)
        · rw [if_neg hs, hclos] at ht
          simp at ht

/-- Witness for C10: a Monday Polish holiday (day 102 since 1970-01-01)
in incremental mode produces the holiday-form skip reason. -/
theorem incremental_skip_reason_forms_witness :
    (∃ nm, nm ≠ "" ∧
      (should_skip_execution (mkPolishCalendar [(102, "New Year")])
          { mode := Mode.incremental, execution_date_obj := 102, today := 103,
            dag_run_type := "scheduled", is_trading_day := false, reason := "",
            manual_conf := {}, target_date := 102, date_range := "single_day",
            batch_size := 1 }).2 =
        "Polish holiday: " ++ nm ++ " (" ++ toString (102 : Nat) ++ ")") ∨
    (should_skip_execution (mkPolishCalendar [(102, "New Year")])
        { mode := Mode.incremental, execution_date_obj := 102, today := 103,
          dag_run_type := "scheduled", is_trading_day := false, reason := "",
          manual_conf := {}, target_date := 102, date_range := "single_day",
          batch_size := 1 }).2 =
      "Weekend: " ++ toString (102 : Nat) :=
  incremental_skip_reason_forms [(102, "New Year")]
    { mode := Mode.incremental, execution_date_obj := 102, today := 103,
      dag_run_type := "scheduled", is_trading_day := false, reason := "",
      manual_conf := {}, target_date := 102, date_range := "single_day",
      batch_size := 1 }
    (by
      intro p hp
      simp only [List.mem_singleton] at hp
      subst hp
      decide)
    rfl (by decide)

end StockEtl
